import Mathlib

/-!
# Verification of `deepsphere-weather` I/O utilities

Shallow embedding of `src/modules/utils_io.py` (and of the tutorial script
`src/tutorials/w_verif.py`) together with theorems about the embedded code.

Modelling conventions:
* Python exceptions are modelled with `Except PyError`; `ValueError` and
  `TypeError` (and numpy/`dict` lookup errors) are distinguished constructors.
* `np.datetime64` values are modelled as `Int` (datetime64 is an int64 count
  of time units); `datetime.datetime` values are likewise modelled by their
  timestamp.
* xarray `DataArray`s are modelled by the fields the utilities actually read:
  the ordered dimension-name list `dims`, the coordinate values of the
  `feature` dimension (variable names), of the `node` dimension and of the
  `time` dimension, plus the raw data values (never read by these utilities).
* xarray `Dataset`s are modelled by their data variables (name, values),
  their dimension names and their `time` coordinate values.
-/

namespace DeepSphere

/-- Python exceptions raised by the utilities. -/
inductive PyError where
  | valueError : String → PyError
  | typeError : String → PyError
  | keyError : String → PyError
  deriving Repr, DecidableEq

/-- A Python float as seen by `np.isnan` / `np.isinf`: a finite value
(modelled by a rational scaled to `Int`, the magnitude is irrelevant),
a NaN, or a (positive or negative) infinity. -/
inductive PyFloat where
  | finite : Int → PyFloat
  | nan : PyFloat
  | inf : PyFloat
  deriving Repr, DecidableEq

/-- `np.isnan` on a single value. -/
def pyIsNan : PyFloat → Bool
  | .nan => true
  | _ => false

/-- `np.isinf` on a single value (true for both infinities). -/
def pyIsInf : PyFloat → Bool
  | .inf => true
  | _ => false

/-- An element of a Python list passed as `timesteps`: either a datetime
(`np.datetime64` or `datetime.datetime`, modelled by its integer timestamp)
or any non-datetime object. -/
inductive PyTimeVal where
  | dt : Int → PyTimeVal
  | nonDt : PyTimeVal
  deriving Repr, DecidableEq

/-- The possible Python arguments of `_check_timesteps`:
a string, `None`, a scalar datetime (`np.datetime64` or `datetime.datetime`),
a Python list, a 1-d numpy array (homogeneous dtype: a flag says whether the
dtype is datetime64), any other sized object (e.g. a tuple, carrying its
`len`), or any other unsized object (on which `len()` raises `TypeError`). -/
inductive PyTimesteps where
  | str : String → PyTimesteps
  | pyNone : PyTimesteps
  | datetime : Int → PyTimesteps
  | list : List PyTimeVal → PyTimesteps
  | ndarray : Bool → List Int → PyTimesteps
  | otherSized : Nat → PyTimesteps
  | otherUnsized : PyTimesteps
  deriving Repr, DecidableEq

/-- `np.datetime64` applied to a string: modelled as an (injective) integer
encoding of the string; no claim depends on the numeric value of the parse. -/
def np_datetime64_ofString (s : String) : Int :=
  Int.ofNat ((s.toList.map Char.toNat).foldl (fun a c => a * 1114112 + c) 0)

/-- Python `len()` applied to a `timesteps` object. Scalar datetimes and
other unsized objects have no `__len__`: `len()` raises `TypeError`. -/
def pyLen : PyTimesteps → Except PyError Nat
  | .str s => .ok s.length
  | .pyNone => .error (.typeError "len() of NoneType")
  | .datetime _ => .error (.typeError "len() of unsized object")
  | .list l => .ok l.length
  | .ndarray _ l => .ok l.length
  | .otherSized n => .ok n
  | .otherUnsized => .error (.typeError "object has no len()")

/-- `utils_io._check_timesteps` (lines 19-43):
```python
def _check_timesteps(timesteps):
    if isinstance(timesteps, str):
        timesteps = np.array([np.datetime64(timesteps)])
        return timesteps
    if timesteps is None:
        raise ValueError("timesteps is None.")
    if len(timesteps) == 0:
        raise ValueError("timesteps is empty.")
    elif isinstance(timesteps, (np.datetime64, datetime.datetime)): ...
```
Note the `len(timesteps)` call is evaluated before the scalar-datetime
`elif` branch, so a scalar datetime raises `TypeError` there. -/
def _check_timesteps (timesteps : PyTimesteps) : Except PyError (List Int) :=
  match timesteps with
  | .str s => .ok [np_datetime64_ofString s]
  | .pyNone => .error (.valueError "timesteps is None.")
  | t =>
    match pyLen t with
    | .error e => .error e
    | .ok n =>
      if n = 0 then .error (.valueError "timesteps is empty.")
      else
        match t with
        | .datetime d => .ok [d]
        | .list l =>
          if l.all (fun v => match v with | .dt _ => true | .nonDt => false) then
            .ok (l.filterMap (fun v => match v with | .dt d => some d | .nonDt => none))
          else
            .error (.valueError "The list must contain np.datetime64 or datetime.datetime objects.")
        | .ndarray isDt vals =>
          if isDt then .ok vals
          else .error (.valueError "The numpy array must contain datetime objects.")
        | _ => .error (.valueError "Unvalid timesteps specification.")

/-- `np.diff` on a 1-d array: `diff[i] = a[i+1] - a[i]`. -/
def npDiff (l : List Int) : List Int :=
  List.zipWith (fun a b => a - b) l.tail l

/-- `utils_io.check_no_missing_timesteps` (lines 61-83), with the printing
omitted: after `_check_timesteps`, raise `ValueError("No data available !")`
on an empty array, and raise `ValueError("The process has been interrupted")`
when the consecutive differences take more than one distinct value
(`len(np.unique(dt)) > 1`). -/
def check_no_missing_timesteps (timesteps : PyTimesteps) : Except PyError Unit := do
  let ts ← _check_timesteps timesteps
  if ts.length = 0 then
    throw (.valueError "No data available !")
  else
    let dt := npDiff ts
    if dt.eraseDups.length > 1 then
      throw (.valueError "The process has been interrupted")
    else
      return ()

/-- An xarray `DataArray`, restricted to the fields the utilities read:
the ordered dimension names, the coordinate values of the `feature` dimension
(variable names, `da['feature'].values.tolist()`), of the `node` dimension
(only its length is read, `len(da['node'])`), of the `time` dimension
(`da['time'].values`, as integer datetime64), and the raw data values
(never read by the utilities, kept to state frame properties). -/
structure DataArray where
  dims : List String
  featureCoords : List String
  nodeCoords : List Int
  timeCoords : List Int
  values : List PyFloat
  deriving Repr, DecidableEq

/-- An xarray `Dataset`, restricted to the fields the utilities read:
the data variables (name, values), the dimension names and the `time`
coordinate values. -/
structure Dataset where
  data_vars : List (String × List PyFloat)
  dims : List String
  timeCoords : List Int
  deriving Repr, DecidableEq

/-- `utils_io.check_finite_Dataset` (lines 85-109). The argument is `none`
for a non-`Dataset` Python value (→ `TypeError`). The NaN scan over the data
variables runs first and, if any variable has a nonzero NaN count, raises
`ValueError` naming the offending variables; only then runs the Inf scan.
The loops accumulating `(list_vars_with_*, flag_raise_error)` are embedded
as folds. -/
def check_finite_Dataset (ds : Option Dataset) : Except PyError Unit := do
  let some d := ds
    | throw (.typeError "ds must be an xarray Dataset.")
  let (list_vars_with_nan, flag_nan) :=
    d.data_vars.foldl
      (fun acc p =>
        if p.2.countP pyIsNan ≠ 0 then (acc.1 ++ [p.1], true) else acc)
      (([] : List String), false)
  if flag_nan then
    throw (.valueError ("The variables " ++ String.intercalate ", " list_vars_with_nan
      ++ " contain NaN values"))
  let (list_vars_with_inf, flag_inf) :=
    d.data_vars.foldl
      (fun acc p =>
        if p.2.countP pyIsInf ≠ 0 then (acc.1 ++ [p.1], true) else acc)
      (([] : List String), false)
  if flag_inf then
    throw (.valueError ("The variables " ++ String.intercalate ", " list_vars_with_inf
      ++ " contain Inf values."))
  return ()

/-- `utils_io.check_dimnames_DataArray` (lines 111-125): the dimension names
in `required_dimnames` that are not dimensions of `da`
(`np.isin(required_dimnames, da_dims, invert=True)`); if any is missing,
raise `ValueError`. The `TypeError` guards on the argument types are
discharged by the Lean types. -/
def check_dimnames_DataArray (da : DataArray) (required_dimnames : List String)
    (da_name : String) : Except PyError Unit :=
  let da_dims := da.dims
  let missing_dims := required_dimnames.filter (fun d => ! da_dims.contains d)
  if missing_dims.length > 0 then
    .error (.valueError ("The " ++ da_name ++ " must have also the "
      ++ String.intercalate " " missing_dims ++ " dimension"))
  else
    .ok ()

/-- `utils_io.check_dimnames_Dataset` (lines 127-141): same check for a
`Dataset`. -/
def check_dimnames_Dataset (ds : Dataset) (required_dimnames : List String)
    (ds_name : String) : Except PyError Unit :=
  let ds_dims := ds.dims
  let missing_dims := required_dimnames.filter (fun d => ! ds_dims.contains d)
  if missing_dims.length > 0 then
    .error (.valueError ("The " ++ ds_name ++ " must have also the "
      ++ String.intercalate " " missing_dims ++ " dimension"))
  else
    .ok ()

/-- `utils_io._check_AR_DataArray_dimnames` (lines 144-165): the dynamic and
bc `DataArray`s must have the `time`, `node` and `feature` dimensions, the
static `DataArray` only `node` and `feature`. The source checks dynamic,
then static, then bc. Absent (`None`) arrays are skipped. -/
def _check_AR_DataArray_dimnames (da_dynamic : Option DataArray := none)
    (da_bc : Option DataArray := none) (da_static : Option DataArray := none) :
    Except PyError Unit := do
  if let some d := da_dynamic then
    check_dimnames_DataArray d ["time", "node", "feature"] "dynamic DataArray"
  if let some s := da_static then
    check_dimnames_DataArray s ["node", "feature"] "static DataArray"
  if let some b := da_bc then
    check_dimnames_DataArray b ["time", "node", "feature"] "bc DataArray"

/-- `utils_io._check_AR_Dataset_dimnames` (lines 232-253): dynamic and bc
`Dataset`s must have the `time` and `node` dimensions, the static `Dataset`
only `node`. -/
def _check_AR_Dataset_dimnames (ds_dynamic : Option Dataset := none)
    (ds_bc : Option Dataset := none) (ds_static : Option Dataset := none) :
    Except PyError Unit := do
  if let some d := ds_dynamic then
    check_dimnames_Dataset d ["time", "node"] "dynamic Dataset"
  if let some s := ds_static then
    check_dimnames_Dataset s ["node"] "static Dataset"
  if let some b := ds_bc then
    check_dimnames_Dataset b ["time", "node"] "bc Dataset"

/-- The `AR_settings` dictionary: only its `input_k` and `output_k` entries
(lists of time lags) are read. -/
structure ARSettings where
  input_k : List Int
  output_k : List Int
  deriving Repr, DecidableEq

/-- The dimension-information dictionary returned by `get_AR_model_diminfo`.
When `AR_settings` is `None` the Python dict lacks the
`input_time_dim`, `output_time_dim`, `input_shape` and `output_shape` keys;
that is modelled by `Option` fields being `none`. Python's `==` on dicts
(used by `check_AR_DataArrays`) is modelled by decidable equality of this
structure. -/
structure DimInfo where
  input_feature_dim : Nat
  output_feature_dim : Nat
  input_features : List String
  output_features : List String
  input_time_dim : Option Nat
  output_time_dim : Option Nat
  input_node_dim : Nat
  output_node_dim : Nat
  dim_order : List String
  input_shape : Option (List Nat)
  output_shape : Option (List Nat)
  deriving Repr, DecidableEq

/-- Python `dict[key]` lookup on a small string-keyed dict: `KeyError` when
the key is absent. -/
def dictLookup (d : List (String × Nat)) (k : String) : Except PyError Nat :=
  match d.find? (fun p => p.1 = k) with
  | some p => .ok p.2
  | none => .error (.keyError k)

/-- `utils_io.get_AR_model_diminfo` (lines 303-408). The dynamic argument is
`none` for a non-`DataArray` Python value (→ `ValueError`). Faithful to the
source, including:
* the bc dimension order must equal the dynamic one (line 346);
* `dim_order = ['sample'] + list(da_dynamic.dims)` (line 361);
* `input_shape = tuple([dim_input[k] for k in dim_order[1:]])` (line 374);
* `output_shape = tuple([dim_input[k] for k in dim_order[1:]])` (line 380) —
  the source reads `dim_input` here, not the `dim_output` dict it just
  built, so `dim_output` is dead and `output_shape` equals `input_shape`. -/
def get_AR_model_diminfo (da_dynamic : Option DataArray)
    (da_static : Option DataArray := none) (da_bc : Option DataArray := none)
    (AR_settings : Option ARSettings := none) : Except PyError DimInfo := do
  let some dyn := da_dynamic
    | throw (.valueError "The dynamic DataArray is necessary for AR models.")
  check_dimnames_DataArray dyn ["time", "node", "feature"] "dynamic DataArray"
  let dynamic_variables := dyn.featureCoords
  let n_dynamic_variables := dynamic_variables.length
  let dims_dynamic := dyn.dims
  let (static_variables, n_static_variables) ←
    match da_static with
    | some s => do
        check_dimnames_DataArray s ["node", "feature"] "static DataArray"
        pure (s.featureCoords, s.featureCoords.length)
    | none => pure (([] : List String), 0)
  let (dims_bc, bc_variables, n_bc_variables) ←
    match da_bc with
    | some b => do
        check_dimnames_DataArray b ["time", "node", "feature"] "bc DataArray"
        pure ((some b.dims : Option (List String)), b.featureCoords, b.featureCoords.length)
    | none => pure ((none : Option (List String)), ([] : List String), 0)
  if let some dbc := dims_bc then
    if ¬ (dims_dynamic = dbc) then
      throw (.valueError "Dimension order of dynamic and bc DataArrays must be equal.")
  let input_feature_dim := n_static_variables + n_bc_variables + n_dynamic_variables
  let output_feature_dim := n_dynamic_variables
  let input_features := static_variables ++ bc_variables ++ dynamic_variables
  let output_features := dynamic_variables
  let input_node_dim := dyn.nodeCoords.length
  let output_node_dim := dyn.nodeCoords.length
  let dim_order := "sample" :: dyn.dims
  match AR_settings with
  | some ar =>
    let input_time_dim := ar.input_k.length
    let output_time_dim := ar.output_k.length
    let dim_input : List (String × Nat) :=
      [("node", input_node_dim), ("time", input_time_dim), ("feature", input_feature_dim)]
    let input_shape ← (dim_order.tail).mapM (dictLookup dim_input)
    let _dim_output : List (String × Nat) :=
      [("node", output_node_dim), ("time", output_time_dim), ("feature", output_feature_dim)]
    let output_shape ← (dim_order.tail).mapM (dictLookup dim_input)
    return { input_feature_dim := input_feature_dim
             output_feature_dim := output_feature_dim
             input_features := input_features
             output_features := output_features
             input_time_dim := some input_time_dim
             output_time_dim := some output_time_dim
             input_node_dim := input_node_dim
             output_node_dim := output_node_dim
             dim_order := dim_order
             input_shape := some input_shape
             output_shape := some output_shape }
  | none =>
    return { input_feature_dim := input_feature_dim
             output_feature_dim := output_feature_dim
             input_features := input_features
             output_features := output_features
             input_time_dim := none
             output_time_dim := none
             input_node_dim := input_node_dim
             output_node_dim := output_node_dim
             dim_order := dim_order
             input_shape := none
             output_shape := none }

/-- Numpy elementwise `a == b` on 1-d arrays, with broadcasting: equal
lengths compare elementwise; a length-1 array broadcasts against the other;
otherwise the elementwise comparison fails and (numpy of the repository's
era, 2021) the expression evaluates to the scalar `False`, modelled as
`none`. -/
def npEqElementwise (a b : List Int) : Option (List Bool) :=
  if a.length = b.length then
    some (List.zipWith (fun x y => decide (x = y)) a b)
  else if a.length = 1 then
    some (b.map (fun y => decide (a.headD 0 = y)))
  else if b.length = 1 then
    some (a.map (fun x => decide (x = b.headD 0)))
  else
    none

/-- `np.all(a == b)`: `np.all` of the scalar `False` is `False`. -/
def npAll_eq (a b : List Int) : Bool :=
  match npEqElementwise a b with
  | some l => l.all id
  | none => false

/-- Python builtin `all(a == b)` on numpy arrays: on the scalar `False`
produced by a failed elementwise comparison, `all` raises `TypeError`
(a numpy bool is not iterable). -/
def pyAll_eq (a b : List Int) : Except PyError Bool :=
  match npEqElementwise a b with
  | some l => .ok (l.all id)
  | none => .error (.typeError "numpy bool object is not iterable")

/-- `utils_io.check_AR_DataArrays`, lines 174-192: presence of the dynamic
arrays, dimension names, and bc-for-validation requirement. Returns the
training dynamic `DataArray` for the later phases. `none` models a Python
argument that is not a `DataArray` (e.g. `None`). -/
def check_AR_DataArrays_precheck (da_training_dynamic : Option DataArray)
    (da_validation_dynamic da_training_bc da_validation_bc da_static :
      Option DataArray) : Except PyError DataArray := do
  let some tr := da_training_dynamic
    | throw (.valueError "The dynamic DataArray is necessary for AR models.")
  if da_validation_bc.isSome ∧ da_validation_dynamic.isNone then
    throw (.valueError "The validation dynamic DataArray is necessary for AR models.")
  _check_AR_DataArray_dimnames (some tr) da_training_bc da_static
  _check_AR_DataArray_dimnames da_validation_dynamic da_validation_bc da_static
  if da_validation_dynamic.isSome ∧ da_training_bc.isSome ∧ da_validation_bc.isNone then
    throw (.valueError "If boundary conditions data are provided for the training, must be provided also for validation!")
  return tr

/-- `utils_io.check_AR_DataArrays`, lines 194-205: no missing timesteps in
each provided array. -/
def check_AR_DataArrays_timesteps (tr : DataArray)
    (da_validation_dynamic da_training_bc da_validation_bc : Option DataArray) :
    Except PyError Unit := do
  check_no_missing_timesteps (.ndarray true tr.timeCoords)
  if let some vd := da_validation_dynamic then
    check_no_missing_timesteps (.ndarray true vd.timeCoords)
  if let some tb := da_training_bc then
    check_no_missing_timesteps (.ndarray true tb.timeCoords)
  if let some vb := da_validation_bc then
    check_no_missing_timesteps (.ndarray true vb.timeCoords)

/-- `utils_io.check_AR_DataArrays`, lines 207-215: time alignment of the
dynamic and bc arrays (`np.all(... == ...)`), for training and then for
validation. -/
def check_AR_DataArrays_alignment (tr : DataArray)
    (da_validation_dynamic da_training_bc da_validation_bc : Option DataArray) :
    Except PyError Unit := do
  if let some tb := da_training_bc then
    if ¬ npAll_eq tr.timeCoords tb.timeCoords then
      throw (.valueError "The training dynamic DataArray and the training boundary conditions DataArray does not have the same timesteps!")
  match da_validation_dynamic, da_validation_bc with
  | some vd, some vb =>
    if ¬ npAll_eq vd.timeCoords vb.timeCoords then
      throw (.valueError "The validation dynamic DataArray and the validation boundary conditions DataArray does not have the same timesteps!")
  | _, _ => return ()

/-- `utils_io.check_AR_DataArrays`, lines 217-226: when a validation dynamic
array is provided, the full dimension-information dictionaries of training
and validation (computed without `AR_settings`) must be equal. -/
def check_AR_DataArrays_diminfo (tr : DataArray)
    (da_validation_dynamic da_training_bc da_validation_bc da_static :
      Option DataArray) : Except PyError Unit := do
  if let some vd := da_validation_dynamic then
    let dim_info_training ← get_AR_model_diminfo (some tr) da_static da_training_bc none
    let dim_info_validation ← get_AR_model_diminfo (some vd) da_static da_validation_bc none
    if ¬ (dim_info_training = dim_info_validation) then
      throw (.valueError "The dimension order of training and validation DataArrays do not coincide!")

/-- `utils_io.check_AR_DataArrays` (lines 167-226), as the sequential
composition of its four blocks. -/
def check_AR_DataArrays (da_training_dynamic : Option DataArray)
    (da_validation_dynamic : Option DataArray := none)
    (da_training_bc : Option DataArray := none)
    (da_validation_bc : Option DataArray := none)
    (da_static : Option DataArray := none) : Except PyError Unit := do
  let tr ← check_AR_DataArrays_precheck da_training_dynamic da_validation_dynamic
    da_training_bc da_validation_bc da_static
  check_AR_DataArrays_timesteps tr da_validation_dynamic da_training_bc da_validation_bc
  check_AR_DataArrays_alignment tr da_validation_dynamic da_training_bc da_validation_bc
  check_AR_DataArrays_diminfo tr da_validation_dynamic da_training_bc da_validation_bc da_static

/-- `utils_io.check_AR_Datasets`, lines 264-275: dimension names and
bc-for-validation requirement. -/
def check_AR_Datasets_precheck (ds_training_dynamic : Dataset)
    (ds_validation_dynamic ds_static ds_training_bc ds_validation_bc :
      Option Dataset) : Except PyError Unit := do
  _check_AR_Dataset_dimnames (some ds_training_dynamic) ds_training_bc ds_static
  _check_AR_Dataset_dimnames ds_validation_dynamic ds_validation_bc ds_static
  if ds_validation_dynamic.isSome ∧ ds_training_bc.isSome ∧ ds_validation_bc.isNone then
    throw (.valueError "If boundary conditions data are provided for the training, must be provided also for validation!")

/-- `utils_io.check_AR_Datasets`, lines 277-288: no missing timesteps in
each provided dataset. -/
def check_AR_Datasets_timesteps (ds_training_dynamic : Dataset)
    (ds_validation_dynamic ds_training_bc ds_validation_bc : Option Dataset) :
    Except PyError Unit := do
  check_no_missing_timesteps (.ndarray true ds_training_dynamic.timeCoords)
  if let some vd := ds_validation_dynamic then
    check_no_missing_timesteps (.ndarray true vd.timeCoords)
  if let some tb := ds_training_bc then
    check_no_missing_timesteps (.ndarray true tb.timeCoords)
  if let some vb := ds_validation_bc then
    check_no_missing_timesteps (.ndarray true vb.timeCoords)

/-- `utils_io.check_AR_Datasets`, lines 290-298: time alignment, written in
the source with Python's builtin `all(... == ...)` instead of `np.all`. -/
def check_AR_Datasets_alignment (ds_training_dynamic : Dataset)
    (ds_validation_dynamic ds_training_bc ds_validation_bc : Option Dataset) :
    Except PyError Unit := do
  if let some tb := ds_training_bc then
    let same_timesteps ← pyAll_eq ds_training_dynamic.timeCoords tb.timeCoords
    if ¬ same_timesteps then
      throw (.valueError "The training dynamic Dataset and the training boundary conditions Dataset does not have the same timesteps!")
  match ds_validation_dynamic, ds_validation_bc with
  | some vd, some vb =>
    let same_timesteps ← pyAll_eq vd.timeCoords vb.timeCoords
    if ¬ same_timesteps then
      throw (.valueError "The validation dynamic Dataset and the validation boundary conditions Dataset does not have the same timesteps!")
  | _, _ => return ()

/-- `utils_io.check_AR_Datasets` (lines 257-298), as the sequential
composition of its three blocks. -/
def check_AR_Datasets (ds_training_dynamic : Dataset)
    (ds_validation_dynamic : Option Dataset := none)
    (ds_static : Option Dataset := none)
    (ds_training_bc : Option Dataset := none)
    (ds_validation_bc : Option Dataset := none) : Except PyError Unit := do
  check_AR_Datasets_precheck ds_training_dynamic ds_validation_dynamic ds_static
    ds_training_bc ds_validation_bc
  check_AR_Datasets_timesteps ds_training_dynamic ds_validation_dynamic
    ds_training_bc ds_validation_bc
  check_AR_Datasets_alignment ds_training_dynamic ds_validation_dynamic
    ds_training_bc ds_validation_bc

/-! ## The tutorial script `src/tutorials/w_verif.py`

The script is modelled at the level of Python name resolution and statement
order: each top-level statement is recorded with the global names it reads,
the global names it binds, and a label for the kind of step it performs.
A statement whose read names are not all bound (by the builtins, by a
surrounding session, or by an earlier statement) raises `NameError`. -/

/-- The kind of step a statement of `w_verif.py` performs. -/
inductive StepKind where
  | importModule : StepKind
  | assign : StepKind
  | loadData : StepKind
  | computeSkill : StepKind
  | addMeshInfo : StepKind
  | summaryGlobal : StepKind
  | summaryLat : StepKind
  | summaryLon : StepKind
  | exampleExpr : StepKind
  | plotMaps : StepKind
  | plotLines : StepKind
  deriving Repr, DecidableEq

/-- One top-level statement: the global names it reads, the global names it
binds, and its step kind. -/
structure Stmt where
  uses : List String
  binds : List String
  kind : StepKind
  deriving Repr, DecidableEq

/-- The top-level statements of `src/tutorials/w_verif.py`, in source order,
with the global names each one reads and binds. -/
def w_verif_script : List Stmt :=
  [ -- import pygsp as pg
    ⟨[], ["pg"], .importModule⟩,
    -- import cartopy.crs as ccrs
    ⟨[], ["ccrs"], .importModule⟩,
    -- data_dir = "/home/ghiggi/Projects/DeepSphere/ToyData/Healpix_400km"
    ⟨[], ["data_dir"], .assign⟩,
    -- ds = xr.open_zarr(os.path.join(data_dir, "Dataset", "dynamic.zarr"))
    ⟨["xr", "os", "data_dir"], ["ds"], .loadData⟩,
    -- ds = ds.isel(time=slice(0, 10))
    ⟨["ds", "slice"], ["ds"], .loadData⟩,
    -- ds = ds.load()
    ⟨["ds"], ["ds"], .loadData⟩,
    -- ds1 = ds.copy()
    ⟨["ds"], ["ds1"], .assign⟩,
    -- ds1 = ds + 0.15
    ⟨["ds"], ["ds1"], .assign⟩,
    -- pred = ds1
    ⟨["ds1"], ["pred"], .assign⟩,
    -- obs = ds
    ⟨["ds"], ["obs"], .assign⟩,
    -- exclude_dim = "leadtime"
    ⟨[], ["exclude_dim"], .assign⟩,
    -- exclude_dim = frozenset(set())
    ⟨["frozenset"], ["exclude_dim"], .assign⟩,
    -- aggregating_dims = ('time')
    ⟨[], ["aggregating_dims"], .assign⟩,
    -- thr = 0.0000001
    ⟨[], ["thr"], .assign⟩,
    -- ds_skill = deterministic(pred, obs, forecast_type="continuous",
    --                          aggregating_dims=..., exclude_dim=...)
    ⟨["deterministic", "pred", "obs", "aggregating_dims", "exclude_dim"],
      ["ds_skill"], .computeSkill⟩,
    -- ds_skill = ds_skill.sphere.add_nodes_from_pygsp(pygsp_graph=pg.graphs...)
    ⟨["ds_skill", "pg"], ["ds_skill"], .addMeshInfo⟩,
    -- ds_skill = ds_skill.sphere.add_SphericalVoronoiMesh(x="lon", y="lat")
    ⟨["ds_skill"], ["ds_skill"], .addMeshInfo⟩,
    -- ds_global_skill = global_summary(ds_skill, area_coords="area")
    ⟨["global_summary", "ds_skill"], ["ds_global_skill"], .summaryGlobal⟩,
    -- ds_latitudinal_skill = latitudinal_summary(ds_skill, ...)
    ⟨["latitudinal_summary", "ds_skill"], ["ds_latitudinal_skill"], .summaryLat⟩,
    -- ds_longitudinal_skill = longitudinal_summary(ds_skill, ...)
    ⟨["longitudinal_summary", "ds_skill"], ["ds_longitudinal_skill"], .summaryLon⟩,
    -- ds_skill["t850"].to_dataset("skill")
    ⟨["ds_skill"], [], .exampleExpr⟩,
    -- ds_global_skill["t850"].to_dataset("skill")
    ⟨["ds_global_skill"], [], .exampleExpr⟩,
    -- ds_latitudinal_skill["t850"].to_dataset("skill")
    ⟨["ds_latitudinal_skill"], [], .exampleExpr⟩,
    -- ds_longitudinal_skill["t850"].to_dataset("skill")
    ⟨["ds_longitudinal_skill"], [], .exampleExpr⟩,
    -- plot_skill_maps(ds_skill, figs_dir, crs_proj=ccrs.Robinson(), ...)
    ⟨["plot_skill_maps", "ds_skill", "figs_dir", "ccrs"], [], .plotMaps⟩,
    -- skills = ["BIAS", "RMSE", "rSD", "pearson_R2"]
    ⟨[], ["skills"], .assign⟩,
    -- ds_global_skill.to_array().sel(skill=skills).plot(col=..., row=...)
    ⟨["ds_global_skill", "skills"], [], .plotLines⟩ ]

/-- The Python builtins the script reads. -/
def pythonBuiltins : List String := ["frozenset", "slice", "set"]

/-- The names the script reads but never binds and that are not builtins:
they must come from a surrounding session (imports and helper definitions
made elsewhere) for the script to run. -/
def w_verif_externalNames : List String :=
  ["xr", "os", "deterministic", "global_summary", "latitudinal_summary",
   "longitudinal_summary", "plot_skill_maps", "figs_dir"]

/-- Run the statements in order in an environment of bound names: the first
statement reading an unbound name raises `NameError` with that name;
otherwise the statement's bindings are added and execution continues. -/
def runStmts : List Stmt → List String → Except String (List String)
  | [], env => .ok env
  | s :: rest, env =>
    match s.uses.find? (fun n => ! env.contains n) with
    | some n => .error n
    | none => runStmts rest (env ++ s.binds)

/-! ## Generic lemmas on the `Except` monad and on lists -/

instance exceptDecidableEq {ε α : Type} [DecidableEq ε] [DecidableEq α] :
    DecidableEq (Except ε α) := fun a b =>
  match a, b with
  | .error e, .error f =>
    decidable_of_iff (e = f) ⟨fun h => by rw [h], fun h => by injection h⟩
  | .ok x, .ok y =>
    decidable_of_iff (x = y) ⟨fun h => by rw [h], fun h => by injection h⟩
  | .error _, .ok _ => isFalse (fun h => Except.noConfusion h)
  | .ok _, .error _ => isFalse (fun h => Except.noConfusion h)

@[simp] lemma pyThrow_def {α : Type} (e : PyError) :
    (throw e : Except PyError α) = Except.error e := rfl

@[simp] lemma pyPure_def {α : Type} (a : α) :
    (pure a : Except PyError α) = Except.ok a := rfl

@[simp] lemma pyBind_ok {α β : Type} (a : α) (f : α → Except PyError β) :
    (Except.ok a >>= f) = f a := rfl

@[simp] lemma pyBind_error {α β : Type} (e : PyError) (f : α → Except PyError β) :
    ((Except.error e : Except PyError α) >>= f) = Except.error e := rfl

lemma pyBind_eq_ok {α β : Type} {x : Except PyError α} {f : α → Except PyError β}
    {b : β} : (x >>= f) = Except.ok b ↔ ∃ a, x = Except.ok a ∧ f a = Except.ok b := by
  cases x <;> simp

@[simp] lemma pyBind_unit_ok (x : Except PyError Unit) :
    (x >>= fun _ => Except.ok ()) = x := by
  cases x with
  | error e => rfl
  | ok a => cases a; rfl

lemma countP_ne_zero_iff_any (P : PyFloat → Bool) (l : List PyFloat) :
    l.countP P ≠ 0 ↔ l.any P = true := by
  rw [Ne, List.countP_eq_zero, List.any_eq_true]
  push_neg
  simp

/-- The accumulating loops of `check_finite_Dataset` compute the names of the
variables whose values satisfy `P`, together with a flag saying whether there
is any such variable. -/
lemma foldl_flagvars (P : PyFloat → Bool) (l : List (String × List PyFloat))
    (acc : List String) (b : Bool) :
    (l.foldl (fun acc p => if p.2.countP P ≠ 0 then (acc.1 ++ [p.1], true) else acc)
      (acc, b))
    = (acc ++ (l.filter (fun p => p.2.any P)).map Prod.fst,
       b || l.any (fun p => p.2.any P)) := by
  induction l generalizing acc b with
  | nil => simp
  | cons hd tl ih =>
    rw [List.foldl_cons, List.filter_cons, List.any_cons]
    by_cases hc : hd.2.countP P ≠ 0
    · have hany : hd.2.any P = true := (countP_ne_zero_iff_any P hd.2).mp hc
      rw [if_pos hc, ih, hany]
      simp
    · have hany : hd.2.any P = false := by
        cases h : hd.2.any P
        · rfl
        · exact absurd ((countP_ne_zero_iff_any P hd.2).mpr h) hc
      rw [if_neg hc, ih, hany]
      simp

lemma check_dimnames_DataArray_ok_iff (da : DataArray) (req : List String)
    (nm : String) :
    check_dimnames_DataArray da req nm = Except.ok () ↔ ∀ r ∈ req, r ∈ da.dims := by
  simp only [check_dimnames_DataArray]
  constructor
  · intro hok r hr
    by_contra hmem
    have hmem' : r ∈ req.filter (fun d => ! da.dims.contains d) :=
      List.mem_filter.mpr ⟨hr, by simp [hmem]⟩
    have hpos : (req.filter (fun d => ! da.dims.contains d)).length > 0 :=
      List.length_pos.mpr (List.ne_nil_of_mem hmem')
    rw [if_pos hpos] at hok
    exact Except.noConfusion hok
  · intro hall
    have hnil : req.filter (fun d => ! da.dims.contains d) = [] := by
      rw [List.filter_eq_nil_iff]
      intro a ha
      simp [hall a ha]
    rw [hnil]
    simp

/-! ## Claim theorems: timesteps -/

/-- Claim C10: the code of `_check_timesteps` evaluated at a scalar datetime
(`np.datetime64` / `datetime.datetime`): the `len(timesteps)` test on line 26
runs before the scalar-datetime `isinstance` branch of line 28, and `len()`
of an unsized object raises `TypeError`, so the scalar is never converted to
a one-element array and the conversion branch is dead code. -/
theorem scalar_datetime_timesteps_raise_TypeError :
    _check_timesteps (PyTimesteps.datetime 18628) =
      Except.error (PyError.typeError "len() of unsized object") := rfl

/-- Claim C3: for every valid (conversion succeeds) non-empty `timesteps`
input, `check_no_missing_timesteps` raises
`ValueError("The process has been interrupted")` exactly when the
consecutive differences of the timesteps take two or more distinct values,
and returns `None` exactly when they take at most one distinct value
(uniform spacing, including a single timestep). -/
theorem check_no_missing_timesteps_gap_iff (t : PyTimesteps) (ts : List Int)
    (h : _check_timesteps t = Except.ok ts) (hne : ts ≠ []) :
    (check_no_missing_timesteps t =
        Except.error (PyError.valueError "The process has been interrupted")
      ↔ 2 ≤ (npDiff ts).eraseDups.length)
    ∧ (check_no_missing_timesteps t = Except.ok ()
      ↔ (npDiff ts).eraseDups.length ≤ 1) := by
  have hlen : ¬ ts.length = 0 := by simpa [List.length_eq_zero] using hne
  unfold check_no_missing_timesteps
  rw [h, pyBind_ok]
  rw [if_neg hlen]
  by_cases hgt : (npDiff ts).eraseDups.length > 1
  · rw [if_pos hgt]
    refine ⟨⟨fun _ => by omega, fun _ => by simp⟩, ⟨fun hc => ?_, fun hle => by omega⟩⟩
    exact absurd hc (by simp)
  · rw [if_neg hgt]
    refine ⟨⟨fun hc => absurd hc (by simp), fun h2 => by omega⟩,
      ⟨fun _ => by omega, fun _ => by simp⟩⟩

/-- Witness for C3: the gappy axis `[0, 6, 18]` (differences 6 and 12) is
rejected, the uniform axis `[0, 6, 12]` is accepted. -/
theorem check_no_missing_timesteps_gap_iff_witness :
    check_no_missing_timesteps (PyTimesteps.ndarray true [0, 6, 18]) =
      Except.error (PyError.valueError "The process has been interrupted")
    ∧ check_no_missing_timesteps (PyTimesteps.ndarray true [0, 6, 12]) =
      Except.ok () := by
  constructor
  · exact (check_no_missing_timesteps_gap_iff (.ndarray true [0, 6, 18]) [0, 6, 18]
      rfl (by decide)).1.mpr (by decide)
  · exact (check_no_missing_timesteps_gap_iff (.ndarray true [0, 6, 12]) [0, 6, 12]
      rfl (by decide)).2.mpr (by decide)

/-! ## Claim theorems: finiteness and dimension-name checks -/

/-- Claim C4: `check_finite_Dataset` raises `ValueError` if and only if some
data variable contains a NaN or an Inf value, and returns `None` when every
value is finite; the NaN check runs before the Inf check, so when both occur
the NaN error is raised; a non-`Dataset` argument raises `TypeError`. The
characterization is a closed-form equation for the function. -/
theorem check_finite_Dataset_spec (ds : Option Dataset) :
    check_finite_Dataset ds =
      match ds with
      | none => Except.error (PyError.typeError "ds must be an xarray Dataset.")
      | some d =>
        if d.data_vars.any (fun p => p.2.any pyIsNan) then
          Except.error (PyError.valueError ("The variables "
            ++ String.intercalate ", "
              ((d.data_vars.filter (fun p => p.2.any pyIsNan)).map Prod.fst)
            ++ " contain NaN values"))
        else if d.data_vars.any (fun p => p.2.any pyIsInf) then
          Except.error (PyError.valueError ("The variables "
            ++ String.intercalate ", "
              ((d.data_vars.filter (fun p => p.2.any pyIsInf)).map Prod.fst)
            ++ " contain Inf values."))
        else Except.ok () := by
  cases ds with
  | none => rfl
  | some d =>
    show (do
      let (list_vars_with_nan, flag_nan) :=
        d.data_vars.foldl
          (fun acc p => if p.2.countP pyIsNan ≠ 0 then (acc.1 ++ [p.1], true) else acc)
          (([] : List String), false)
      if flag_nan then
        throw (.valueError ("The variables " ++ String.intercalate ", " list_vars_with_nan
          ++ " contain NaN values"))
      let (list_vars_with_inf, flag_inf) :=
        d.data_vars.foldl
          (fun acc p => if p.2.countP pyIsInf ≠ 0 then (acc.1 ++ [p.1], true) else acc)
          (([] : List String), false)
      if flag_inf then
        throw (.valueError ("The variables " ++ String.intercalate ", " list_vars_with_inf
          ++ " contain Inf values."))
      return () : Except PyError Unit) = _
    rw [foldl_flagvars pyIsNan, foldl_flagvars pyIsInf]
    cases hnan : d.data_vars.any (fun p => p.2.any pyIsNan) <;>
      cases hinf : d.data_vars.any (fun p => p.2.any pyIsInf) <;>
      simp [hnan, hinf]

/-- Claim C6: `check_dimnames_DataArray` raises `ValueError` exactly when
some required dimension name is missing from the array (closed-form
equation), and consequently `_check_AR_DataArray_dimnames` demands `time`,
`node` and `feature` of dynamic and bc arrays but only `node` and `feature`
of a static array: no `time` dimension is required of static data. -/
theorem dimname_checks_spec (da : DataArray) (req : List String) (nm : String)
    (dyn bc st : DataArray) :
    (check_dimnames_DataArray da req nm =
      if req.all (fun r => da.dims.contains r) then Except.ok ()
      else Except.error (PyError.valueError ("The " ++ nm ++ " must have also the "
        ++ String.intercalate " " (req.filter (fun d => ! da.dims.contains d))
        ++ " dimension")))
    ∧ (_check_AR_DataArray_dimnames (some dyn) none none = Except.ok ()
        ↔ ("time" ∈ dyn.dims ∧ "node" ∈ dyn.dims ∧ "feature" ∈ dyn.dims))
    ∧ (_check_AR_DataArray_dimnames none (some bc) none = Except.ok ()
        ↔ ("time" ∈ bc.dims ∧ "node" ∈ bc.dims ∧ "feature" ∈ bc.dims))
    ∧ (_check_AR_DataArray_dimnames none none (some st) = Except.ok ()
        ↔ ("node" ∈ st.dims ∧ "feature" ∈ st.dims)) := by
  refine ⟨?_, ?_, ?_, ?_⟩
  · by_cases hall : req.all (fun r => da.dims.contains r) = true
    · rw [if_pos hall]
      exact (check_dimnames_DataArray_ok_iff da req nm).mpr (by
        intro r hr
        have := (List.all_eq_true.mp hall) r hr
        simpa using this)
    · rw [if_neg hall]
      simp only [check_dimnames_DataArray]
      rw [if_pos ?hpos]
      case hpos =>
        rw [List.all_eq_true] at hall
        push_neg at hall
        obtain ⟨r, hr, hcon⟩ := hall
        have : r ∈ req.filter (fun d => ! da.dims.contains d) :=
          List.mem_filter.mpr ⟨hr, by simp_all⟩
        exact List.length_pos.mpr (List.ne_nil_of_mem this)
  · rw [show _check_AR_DataArray_dimnames (some dyn) none none
        = check_dimnames_DataArray dyn ["time", "node", "feature"] "dynamic DataArray" from by
      simp [_check_AR_DataArray_dimnames]]
    rw [check_dimnames_DataArray_ok_iff]
    constructor
    · intro h
      exact ⟨h _ (by simp), h _ (by simp), h _ (by simp)⟩
    · rintro ⟨h1, h2, h3⟩ r hr
      simp only [List.mem_cons, List.not_mem_nil, or_false] at hr
      rcases hr with rfl | rfl | rfl <;> assumption
  · rw [show _check_AR_DataArray_dimnames none (some bc) none
        = check_dimnames_DataArray bc ["time", "node", "feature"] "bc DataArray" from by
      simp [_check_AR_DataArray_dimnames]]
    rw [check_dimnames_DataArray_ok_iff]
    constructor
    · intro h
      exact ⟨h _ (by simp), h _ (by simp), h _ (by simp)⟩
    · rintro ⟨h1, h2, h3⟩ r hr
      simp only [List.mem_cons, List.not_mem_nil, or_false] at hr
      rcases hr with rfl | rfl | rfl <;> assumption
  · rw [show _check_AR_DataArray_dimnames none none (some st)
        = check_dimnames_DataArray st ["node", "feature"] "static DataArray" from by
      simp [_check_AR_DataArray_dimnames]]
    rw [check_dimnames_DataArray_ok_iff]
    constructor
    · intro h
      exact ⟨h _ (by simp), h _ (by simp)⟩
    · rintro ⟨h1, h2⟩ r hr
      simp only [List.mem_cons, List.not_mem_nil, or_false] at hr
      rcases hr with rfl | rfl <;> assumption

/-! ## Claim theorems: `get_AR_model_diminfo` -/

lemma check_dimnames_DataArray_ok_of (da : DataArray) (req : List String)
    (nm : String) (h : ∀ r ∈ req, r ∈ da.dims) :
    check_dimnames_DataArray da req nm = Except.ok () :=
  (check_dimnames_DataArray_ok_iff da req nm).mpr h

/-- Claim C1: for a dynamic `DataArray` with the `time`, `node` and `feature`
dimensions, a static array with the `node` and `feature` dimensions when
present, and a bc array with the dynamic array's dimension order when
present, `get_AR_model_diminfo` (without `AR_settings`) returns the record
whose `input_features` is static ++ bc ++ dynamic variables,
`input_feature_dim` the sum of the three counts, output features/count those
of the dynamic array, node dims the length of the dynamic `node` dimension,
and `dim_order` is `sample` followed by the dynamic dims; an absent static
or bc array contributes `[]` and `0`. -/
theorem diminfo_fields_spec (dyn : DataArray) (st bc : Option DataArray)
    (hdyn : "time" ∈ dyn.dims ∧ "node" ∈ dyn.dims ∧ "feature" ∈ dyn.dims)
    (hst : ∀ s, st = some s → ("node" ∈ s.dims ∧ "feature" ∈ s.dims))
    (hbc : ∀ b, bc = some b → b.dims = dyn.dims) :
    get_AR_model_diminfo (some dyn) st bc none = Except.ok
      { input_feature_dim := (st.elim 0 (fun s => s.featureCoords.length))
            + (bc.elim 0 (fun b => b.featureCoords.length)) + dyn.featureCoords.length
        output_feature_dim := dyn.featureCoords.length
        input_features := (st.elim [] (fun s => s.featureCoords))
            ++ (bc.elim [] (fun b => b.featureCoords)) ++ dyn.featureCoords
        output_features := dyn.featureCoords
        input_time_dim := none
        output_time_dim := none
        input_node_dim := dyn.nodeCoords.length
        output_node_dim := dyn.nodeCoords.length
        dim_order := "sample" :: dyn.dims
        input_shape := none
        output_shape := none } := by
  have hdynok : check_dimnames_DataArray dyn ["time", "node", "feature"]
      "dynamic DataArray" = Except.ok () := by
    apply check_dimnames_DataArray_ok_of
    intro r hr
    simp only [List.mem_cons, List.not_mem_nil, or_false] at hr
    rcases hr with rfl | rfl | rfl
    · exact hdyn.1
    · exact hdyn.2.1
    · exact hdyn.2.2
  cases st with
  | none =>
    cases bc with
    | none => simp [get_AR_model_diminfo, hdynok]
    | some b =>
      have hbceq := hbc b rfl
      have hbcok : check_dimnames_DataArray b ["time", "node", "feature"]
          "bc DataArray" = Except.ok () := by
        apply check_dimnames_DataArray_ok_of
        intro r hr
        rw [hbceq]
        simp only [List.mem_cons, List.not_mem_nil, or_false] at hr
        rcases hr with rfl | rfl | rfl
        · exact hdyn.1
        · exact hdyn.2.1
        · exact hdyn.2.2
      simp [get_AR_model_diminfo, hdynok, hbcok, hbceq]
  | some s =>
    have hsok : check_dimnames_DataArray s ["node", "feature"]
        "static DataArray" = Except.ok () := by
      apply check_dimnames_DataArray_ok_of
      intro r hr
      simp only [List.mem_cons, List.not_mem_nil, or_false] at hr
      rcases hr with rfl | rfl
      · exact (hst s rfl).1
      · exact (hst s rfl).2
    cases bc with
    | none => simp [get_AR_model_diminfo, hdynok, hsok]
    | some b =>
      have hbceq := hbc b rfl
      have hbcok : check_dimnames_DataArray b ["time", "node", "feature"]
          "bc DataArray" = Except.ok () := by
        apply check_dimnames_DataArray_ok_of
        intro r hr
        rw [hbceq]
        simp only [List.mem_cons, List.not_mem_nil, or_false] at hr
        rcases hr with rfl | rfl | rfl
        · exact hdyn.1
        · exact hdyn.2.1
        · exact hdyn.2.2
      simp [get_AR_model_diminfo, hdynok, hsok, hbcok, hbceq]

/-- Example training dynamic array: dims (time, node, feature), two
variables, three nodes, uniform 6-hourly time axis. -/
def dynEx : DataArray :=
  ⟨["time", "node", "feature"], ["z500", "t850"], [0, 1, 2], [0, 6, 12],
    [PyFloat.finite 1]⟩

/-- Example static array: dims (node, feature), one variable, no time. -/
def stEx : DataArray :=
  ⟨["node", "feature"], ["orog"], [0, 1, 2], [], []⟩

/-- Example bc array: same dims and time axis as `dynEx`, one variable. -/
def bcEx : DataArray :=
  ⟨["time", "node", "feature"], ["tisr"], [0, 1, 2], [0, 6, 12], []⟩

/-- Witness for C1 at the concrete arrays `dynEx`, `stEx`, `bcEx`. -/
theorem diminfo_fields_spec_witness :
    get_AR_model_diminfo (some dynEx) (some stEx) (some bcEx) none = Except.ok
      { input_feature_dim := 4
        output_feature_dim := 2
        input_features := ["orog", "tisr", "z500", "t850"]
        output_features := ["z500", "t850"]
        input_time_dim := none
        output_time_dim := none
        input_node_dim := 3
        output_node_dim := 3
        dim_order := ["sample", "time", "node", "feature"]
        input_shape := none
        output_shape := none } := by
  have h := diminfo_fields_spec dynEx (some stEx) (some bcEx)
    (by decide)
    (by intro s hs; injection hs with h; subst h; exact ⟨by decide, by decide⟩)
    (by intro b hb; injection hb with h; subst h; decide)
  exact h

/-- Example `AR_settings`: two input lags, one output lag. -/
def arEx : ARSettings := ⟨[-2, -1], [0]⟩

/-- Claim C2 (code evaluation at the failing input): with two input lags and
one output lag, one static variable and two dynamic variables,
`input_time_dim = 2` and `output_time_dim = 1` and `input_shape = (2, 3, 3)`
are as the claim says, but `output_shape` is also `(2, 3, 3)`: line 380 of
the source builds it from the `dim_input` dictionary, not from the
`dim_output` dictionary it just computed, so the output sizes
`(1, 3, 2)` (time, node, feature) never reach the result. -/
theorem diminfo_output_shape_from_input_sizes :
    get_AR_model_diminfo (some dynEx) (some stEx) none (some arEx) = Except.ok
      { input_feature_dim := 3
        output_feature_dim := 2
        input_features := ["orog", "z500", "t850"]
        output_features := ["z500", "t850"]
        input_time_dim := some 2
        output_time_dim := some 1
        input_node_dim := 3
        output_node_dim := 3
        dim_order := ["sample", "time", "node", "feature"]
        input_shape := some [2, 3, 3]
        output_shape := some [2, 3, 3] } := by decide

lemma check_dimnames_DataArray_congr {da db : DataArray} (h : da.dims = db.dims)
    (req : List String) (nm : String) :
    check_dimnames_DataArray da req nm = check_dimnames_DataArray db req nm := by
  simp only [check_dimnames_DataArray, h]

/-- Claim C7: `get_AR_model_diminfo` is pure. The embedding is a function
(so two calls with equal inputs agree definitionally and no argument is
mutated — the Python only reads `dims`, the `feature` and `node` coordinates
and `AR_settings`, and assigns no attribute of its arguments); the
substantial content proved here is the frame property: the result depends
only on the dimension names, the feature coordinates and the node count of
the arrays, not on their time coordinates or data values. -/
theorem diminfo_pure (dyn dyn' : DataArray) (st st' bc bc' : Option DataArray)
    (ar : Option ARSettings)
    (h1 : dyn.dims = dyn'.dims) (h2 : dyn.featureCoords = dyn'.featureCoords)
    (h3 : dyn.nodeCoords.length = dyn'.nodeCoords.length)
    (h4 : st.map (fun s => (s.dims, s.featureCoords))
        = st'.map (fun s => (s.dims, s.featureCoords)))
    (h5 : bc.map (fun b => (b.dims, b.featureCoords))
        = bc'.map (fun b => (b.dims, b.featureCoords))) :
    get_AR_model_diminfo (some dyn) st bc ar
      = get_AR_model_diminfo (some dyn') st' bc' ar := by
  cases st with
  | none =>
    cases st' with
    | some s' => simp at h4
    | none =>
      cases bc with
      | none =>
        cases bc' with
        | some b' => simp at h5
        | none =>
          simp only [get_AR_model_diminfo]
          rw [check_dimnames_DataArray_congr h1]
          simp only [h1, h2, h3]
      | some b =>
        cases bc' with
        | none => simp at h5
        | some b' =>
          obtain ⟨hb1, hb2⟩ : b.dims = b'.dims ∧ b.featureCoords = b'.featureCoords := by
            simpa using h5
          simp only [get_AR_model_diminfo]
          rw [check_dimnames_DataArray_congr h1, check_dimnames_DataArray_congr hb1]
          simp only [h1, h2, h3, hb1, hb2]
  | some s =>
    cases st' with
    | none => simp at h4
    | some s' =>
      obtain ⟨hs1, hs2⟩ : s.dims = s'.dims ∧ s.featureCoords = s'.featureCoords := by
        simpa using h4
      cases bc with
      | none =>
        cases bc' with
        | some b' => simp at h5
        | none =>
          simp only [get_AR_model_diminfo]
          rw [check_dimnames_DataArray_congr h1, check_dimnames_DataArray_congr hs1]
          simp only [h1, h2, h3, hs1, hs2]
      | some b =>
        cases bc' with
        | none => simp at h5
        | some b' =>
          obtain ⟨hb1, hb2⟩ : b.dims = b'.dims ∧ b.featureCoords = b'.featureCoords := by
            simpa using h5
          simp only [get_AR_model_diminfo]
          rw [check_dimnames_DataArray_congr h1, check_dimnames_DataArray_congr hs1,
            check_dimnames_DataArray_congr hb1]
          simp only [h1, h2, h3, hs1, hs2, hb1, hb2]

/-- A twin of `dynEx` with different node labels, different time coordinates
and different data values, but the same dims, features and node count. -/
def dynEx2 : DataArray :=
  ⟨["time", "node", "feature"], ["z500", "t850"], [7, 8, 9], [100, 200, 300],
    [PyFloat.nan]⟩

/-- A twin of `stEx` with different node labels and data values. -/
def stEx2 : DataArray :=
  ⟨["node", "feature"], ["orog"], [7, 8, 9], [], [PyFloat.inf]⟩

/-- A twin of `bcEx` with a different time axis. -/
def bcEx2 : DataArray :=
  ⟨["time", "node", "feature"], ["tisr"], [7, 8, 9], [100, 200, 300], []⟩

/-- Witness for C7: the records computed from the example arrays and from
their twins (same dims, features and node counts, different time axes, node
labels and data) coincide. -/
theorem diminfo_pure_witness :
    get_AR_model_diminfo (some dynEx) (some stEx) (some bcEx) none
      = get_AR_model_diminfo (some dynEx2) (some stEx2) (some bcEx2) none :=
  diminfo_pure dynEx dynEx2 (some stEx) (some stEx2) (some bcEx) (some bcEx2)
    none (by decide) (by decide) (by decide) (by decide) (by decide)

/-! ## Claim theorems: the tutorial script -/

/-- Claim C8 counterexample: executed from top to bottom as written (with
only the Python builtins bound), the script does not complete: its fourth
statement `ds = xr.open_zarr(...)` reads the name `xr`, which no earlier
statement of the file binds (the file imports only `pygsp` and
`cartopy.crs`), so execution stops there with `NameError: xr`. -/
theorem w_verif_standalone_NameError :
    runStmts w_verif_script pythonBuiltins = Except.error "xr" := by decide

/-- Claim C8 (amended): in a session that already binds the externally
provided names (`xr`, `os`, the verification helpers and `figs_dir` —
notebook-style), the script runs to completion, and its steps occur in the
order: load the dataset, compute the deterministic skill, global then
latitudinal then longitudinal summaries, skill-map plot, line plot. -/
theorem w_verif_session_order :
    (∃ env, runStmts w_verif_script (pythonBuiltins ++ w_verif_externalNames)
        = Except.ok env)
    ∧ List.Sublist
        [StepKind.loadData, StepKind.computeSkill, StepKind.summaryGlobal,
         StepKind.summaryLat, StepKind.summaryLon, StepKind.plotMaps,
         StepKind.plotLines]
        (w_verif_script.map Stmt.kind) := by
  refine ⟨⟨_, rfl⟩, ?_⟩
  decide

/-! ## Claim theorems: AR array/dataset checks -/

lemma zipWith_eq_all_iff (a b : List Int) (h : a.length = b.length) :
    ((List.zipWith (fun x y => decide (x = y)) a b).all id = true) ↔ a = b := by
  induction a generalizing b with
  | nil =>
    cases b with
    | nil => simp
    | cons y ys => simp at h
  | cons x xs ih =>
    cases b with
    | nil => simp at h
    | cons y ys =>
      have h' : xs.length = ys.length := by simpa using h
      simp only [List.zipWith_cons_cons, List.all_cons, Bool.and_eq_true, id_eq,
        decide_eq_true_eq]
      rw [ih ys h']
      constructor
      · rintro ⟨rfl, rfl⟩
        rfl
      · intro he
        injection he with hh ht
        exact ⟨hh, ht⟩

lemma npEqElementwise_of_length_eq {a b : List Int} (h : a.length = b.length) :
    npEqElementwise a b = some (List.zipWith (fun x y => decide (x = y)) a b) := by
  unfold npEqElementwise
  rw [if_pos h]

lemma zipWith_all_false {a b : List Int} (h : a.length = b.length) (hne : a ≠ b) :
    (List.zipWith (fun x y => decide (x = y)) a b).all id = false := by
  cases hx : (List.zipWith (fun x y => decide (x = y)) a b).all id
  · rfl
  · exact absurd ((zipWith_eq_all_iff a b h).mp hx) hne

lemma npAll_eq_self (a : List Int) : npAll_eq a a = true := by
  simp only [npAll_eq, npEqElementwise_of_length_eq (rfl : a.length = a.length)]
  exact (zipWith_eq_all_iff a a rfl).mpr rfl

lemma npAll_eq_false {a b : List Int} (h : a.length = b.length) (hne : a ≠ b) :
    npAll_eq a b = false := by
  simp only [npAll_eq, npEqElementwise_of_length_eq h]
  exact zipWith_all_false h hne

lemma pyAll_eq_self (a : List Int) : pyAll_eq a a = Except.ok true := by
  simp only [pyAll_eq, npEqElementwise_of_length_eq (rfl : a.length = a.length)]
  rw [(zipWith_eq_all_iff a a rfl).mpr rfl]

lemma pyAll_eq_ok_false {a b : List Int} (h : a.length = b.length) (hne : a ≠ b) :
    pyAll_eq a b = Except.ok false := by
  simp only [pyAll_eq, npEqElementwise_of_length_eq h]
  rw [zipWith_all_false h hne]

/-- Claim C5: for `check_AR_DataArrays` (conjuncts 1-3) and
`check_AR_Datasets` (conjuncts 4-6): when in a call that has passed the
earlier phases a training (resp. validation) bc array is provided whose
`time` coordinate values are not all equal to those of the matching dynamic
array, the call raises `ValueError`; when the timesteps of each provided
pair coincide elementwise, the alignment checks pass. For the `Dataset`
variant the two time axes are compared under equal length (the source uses
Python `all(a == b)` there, which presupposes an elementwise comparison). -/
theorem time_alignment_checks (tr : DataArray) (vdO trbcO vbcO stO : Option DataArray)
    (dtr : Dataset) (dvdO dtrbcO dvbO dstO : Option Dataset) :
    (∀ tb : DataArray, trbcO = some tb →
      check_AR_DataArrays_precheck (some tr) vdO trbcO vbcO stO = Except.ok tr →
      check_AR_DataArrays_timesteps tr vdO trbcO vbcO = Except.ok () →
      npAll_eq tr.timeCoords tb.timeCoords = false →
      check_AR_DataArrays (some tr) vdO trbcO vbcO stO =
        Except.error (PyError.valueError "The training dynamic DataArray and the training boundary conditions DataArray does not have the same timesteps!"))
    ∧ (∀ vd vb : DataArray, vdO = some vd → vbcO = some vb →
      check_AR_DataArrays_precheck (some tr) vdO trbcO vbcO stO = Except.ok tr →
      check_AR_DataArrays_timesteps tr vdO trbcO vbcO = Except.ok () →
      (∀ tb, trbcO = some tb → tb.timeCoords = tr.timeCoords) →
      npAll_eq vd.timeCoords vb.timeCoords = false →
      check_AR_DataArrays (some tr) vdO trbcO vbcO stO =
        Except.error (PyError.valueError "The validation dynamic DataArray and the validation boundary conditions DataArray does not have the same timesteps!"))
    ∧ ((∀ tb, trbcO = some tb → tb.timeCoords = tr.timeCoords) →
      (∀ vd vb, vdO = some vd → vbcO = some vb → vb.timeCoords = vd.timeCoords) →
      check_AR_DataArrays_alignment tr vdO trbcO vbcO = Except.ok ())
    ∧ (∀ dtb : Dataset, dtrbcO = some dtb →
      check_AR_Datasets_precheck dtr dvdO dstO dtrbcO dvbO = Except.ok () →
      check_AR_Datasets_timesteps dtr dvdO dtrbcO dvbO = Except.ok () →
      dtr.timeCoords.length = dtb.timeCoords.length →
      dtr.timeCoords ≠ dtb.timeCoords →
      check_AR_Datasets dtr dvdO dstO dtrbcO dvbO =
        Except.error (PyError.valueError "The training dynamic Dataset and the training boundary conditions Dataset does not have the same timesteps!"))
    ∧ (∀ dvd dvb : Dataset, dvdO = some dvd → dvbO = some dvb →
      check_AR_Datasets_precheck dtr dvdO dstO dtrbcO dvbO = Except.ok () →
      check_AR_Datasets_timesteps dtr dvdO dtrbcO dvbO = Except.ok () →
      (∀ dtb, dtrbcO = some dtb → dtb.timeCoords = dtr.timeCoords) →
      dvd.timeCoords.length = dvb.timeCoords.length →
      dvd.timeCoords ≠ dvb.timeCoords →
      check_AR_Datasets dtr dvdO dstO dtrbcO dvbO =
        Except.error (PyError.valueError "The validation dynamic Dataset and the validation boundary conditions Dataset does not have the same timesteps!"))
    ∧ ((∀ dtb, dtrbcO = some dtb → dtb.timeCoords = dtr.timeCoords) →
      (∀ dvd dvb, dvdO = some dvd → dvbO = some dvb → dvb.timeCoords = dvd.timeCoords) →
      check_AR_Datasets_alignment dtr dvdO dtrbcO dvbO = Except.ok ()) := by
  refine ⟨?_, ?_, ?_, ?_, ?_, ?_⟩
  · rintro tb rfl hpre htime hmis
    simp only [check_AR_DataArrays]
    rw [hpre, pyBind_ok, htime, pyBind_ok]
    have hal : check_AR_DataArrays_alignment tr vdO (some tb) vbcO =
        Except.error (PyError.valueError "The training dynamic DataArray and the training boundary conditions DataArray does not have the same timesteps!") := by
      simp [check_AR_DataArrays_alignment, hmis]
    rw [hal, pyBind_error]
  · rintro vd vb rfl rfl hpre htime htb hmis
    simp only [check_AR_DataArrays]
    rw [hpre, pyBind_ok, htime, pyBind_ok]
    have hal : check_AR_DataArrays_alignment tr (some vd) trbcO (some vb) =
        Except.error (PyError.valueError "The validation dynamic DataArray and the validation boundary conditions DataArray does not have the same timesteps!") := by
      cases trbcO with
      | none => simp [check_AR_DataArrays_alignment, hmis]
      | some tb =>
        have h := htb tb rfl
        simp [check_AR_DataArrays_alignment, h, npAll_eq_self, hmis]
    rw [hal, pyBind_error]
  · rintro htb hvd
    cases trbcO with
    | none =>
      cases vdO with
      | none => simp [check_AR_DataArrays_alignment]
      | some vd =>
        cases vbcO with
        | none => simp [check_AR_DataArrays_alignment]
        | some vb => simp [check_AR_DataArrays_alignment, hvd vd vb rfl rfl, npAll_eq_self]
    | some tb =>
      have h := htb tb rfl
      cases vdO with
      | none => simp [check_AR_DataArrays_alignment, h, npAll_eq_self]
      | some vd =>
        cases vbcO with
        | none => simp [check_AR_DataArrays_alignment, h, npAll_eq_self]
        | some vb =>
          simp [check_AR_DataArrays_alignment, h, hvd vd vb rfl rfl, npAll_eq_self]
  · rintro dtb rfl hpre htime hlen hne
    simp only [check_AR_Datasets]
    rw [hpre, pyBind_ok, htime, pyBind_ok]
    simp [check_AR_Datasets_alignment, pyAll_eq_ok_false hlen hne]
  · rintro dvd dvb rfl rfl hpre htime htb hlen hne
    simp only [check_AR_Datasets]
    rw [hpre, pyBind_ok, htime, pyBind_ok]
    cases dtrbcO with
    | none => simp [check_AR_Datasets_alignment, pyAll_eq_ok_false hlen hne]
    | some dtb =>
      have h := htb dtb rfl
      simp [check_AR_Datasets_alignment, h, pyAll_eq_self, pyAll_eq_ok_false hlen hne]
  · rintro htb hvd
    cases dtrbcO with
    | none =>
      cases dvdO with
      | none => simp [check_AR_Datasets_alignment]
      | some dvd =>
        cases dvbO with
        | none => simp [check_AR_Datasets_alignment]
        | some dvb => simp [check_AR_Datasets_alignment, hvd dvd dvb rfl rfl, pyAll_eq_self]
    | some dtb =>
      have h := htb dtb rfl
      cases dvdO with
      | none => simp [check_AR_Datasets_alignment, h, pyAll_eq_self]
      | some dvd =>
        cases dvbO with
        | none => simp [check_AR_Datasets_alignment, h, pyAll_eq_self]
        | some dvb =>
          simp [check_AR_Datasets_alignment, h, hvd dvd dvb rfl rfl, pyAll_eq_self]

/-- A bc array whose (uniform) time axis differs from the one of `dynEx`. -/
def bcBadEx : DataArray :=
  ⟨["time", "node", "feature"], ["tisr"], [0, 1, 2], [6, 12, 18], []⟩

/-- An example Dataset (time, node), one variable, uniform time axis. -/
def dsEx : Dataset := ⟨[("z500", [PyFloat.finite 0])], ["time", "node"], [0, 6, 12]⟩

/-- Witness for C5: a training bc array with a shifted time axis makes
`check_AR_DataArrays` raise the training-alignment `ValueError`. -/
theorem time_alignment_checks_witness :
    check_AR_DataArrays (some dynEx) none (some bcBadEx) none none =
      Except.error (PyError.valueError "The training dynamic DataArray and the training boundary conditions DataArray does not have the same timesteps!") :=
  (time_alignment_checks dynEx none (some bcBadEx) none none dsEx none none none
    none).1 bcBadEx rfl (by decide) (by decide) (by decide)

lemma check_AR_DataArrays_precheck_ok_value {tr x : DataArray}
    {vd trbc vbc st : Option DataArray}
    (h : check_AR_DataArrays_precheck (some tr) vd trbc vbc st = Except.ok x) :
    x = tr := by
  simp only [check_AR_DataArrays_precheck] at h
  split at h
  · simp at h
  · rw [pyBind_eq_ok] at h
    obtain ⟨-, -, h⟩ := h
    rw [pyBind_eq_ok] at h
    obtain ⟨-, -, h⟩ := h
    split at h
    · rw [pyBind_eq_ok] at h
      obtain ⟨-, -, h⟩ := h
      simp at h
    · rw [pyBind_eq_ok] at h
      obtain ⟨-, -, h⟩ := h
      simp at h
      exact h.symm

/-- Claim C9: when a validation dynamic array is provided, a normal return
of `check_AR_DataArrays` means the training and the validation
dimension-information records (the full dictionaries computed by
`get_AR_model_diminfo`) are identical; and whenever the two records differ
in any entry — even with identical `dim_order` — the call raises the
`ValueError` about non-coinciding dimension order. -/
theorem diminfo_equality_check (tr vdyn : DataArray) (trbcO vbcO stO : Option DataArray) :
    (check_AR_DataArrays (some tr) (some vdyn) trbcO vbcO stO = Except.ok () →
      ∃ i, get_AR_model_diminfo (some tr) stO trbcO none = Except.ok i
        ∧ get_AR_model_diminfo (some vdyn) stO vbcO none = Except.ok i)
    ∧ (∀ i1 i2 : DimInfo,
      check_AR_DataArrays_precheck (some tr) (some vdyn) trbcO vbcO stO = Except.ok tr →
      check_AR_DataArrays_timesteps tr (some vdyn) trbcO vbcO = Except.ok () →
      check_AR_DataArrays_alignment tr (some vdyn) trbcO vbcO = Except.ok () →
      get_AR_model_diminfo (some tr) stO trbcO none = Except.ok i1 →
      get_AR_model_diminfo (some vdyn) stO vbcO none = Except.ok i2 →
      i1 ≠ i2 →
      check_AR_DataArrays (some tr) (some vdyn) trbcO vbcO stO =
        Except.error (PyError.valueError "The dimension order of training and validation DataArrays do not coincide!")) := by
  constructor
  · intro hok
    simp only [check_AR_DataArrays] at hok
    rw [pyBind_eq_ok] at hok
    obtain ⟨a, hpre, hok⟩ := hok
    have ha := check_AR_DataArrays_precheck_ok_value hpre
    subst ha
    rw [pyBind_eq_ok] at hok
    obtain ⟨-, -, hok⟩ := hok
    rw [pyBind_eq_ok] at hok
    obtain ⟨-, -, hok⟩ := hok
    simp only [check_AR_DataArrays_diminfo] at hok
    rw [pyBind_eq_ok] at hok
    obtain ⟨i1, hi1, hok⟩ := hok
    rw [pyBind_eq_ok] at hok
    obtain ⟨i2, hi2, hok⟩ := hok
    by_cases he : i1 = i2
    · subst he
      exact ⟨i1, hi1, hi2⟩
    · rw [if_pos he] at hok
      simp at hok
  · intro i1 i2 hpre htime hal hi1 hi2 hne
    simp only [check_AR_DataArrays]
    rw [hpre, pyBind_ok, htime, pyBind_ok, hal, pyBind_ok]
    simp only [check_AR_DataArrays_diminfo]
    rw [hi1, pyBind_ok, hi2, pyBind_ok, if_pos hne, pyThrow_def]

/-- A validation dynamic array with the same dims (hence the same dim_order)
as `dynEx` but only one variable. -/
def vdynEx : DataArray :=
  ⟨["time", "node", "feature"], ["z500"], [0, 1, 2], [0, 6, 12], []⟩

/-- Witness for C9: training and validation arrays with identical dimension
order but different feature lists are rejected with the dimension-order
`ValueError`. -/
theorem diminfo_equality_check_witness :
    (check_AR_DataArrays (some dynEx) (some vdynEx) none none none =
      Except.error (PyError.valueError "The dimension order of training and validation DataArrays do not coincide!"))
    ∧ "sample" :: dynEx.dims = "sample" :: vdynEx.dims := by
  refine ⟨?_, by decide⟩
  exact (diminfo_equality_check dynEx vdynEx none none none).2
    { input_feature_dim := 2
      output_feature_dim := 2
      input_features := ["z500", "t850"]
      output_features := ["z500", "t850"]
      input_time_dim := none
      output_time_dim := none
      input_node_dim := 3
      output_node_dim := 3
      dim_order := ["sample", "time", "node", "feature"]
      input_shape := none
      output_shape := none }
    { input_feature_dim := 1
      output_feature_dim := 1
      input_features := ["z500"]
      output_features := ["z500"]
      input_time_dim := none
      output_time_dim := none
      input_node_dim := 3
      output_node_dim := 3
      dim_order := ["sample", "time", "node", "feature"]
      input_shape := none
      output_shape := none }
    (by decide) (by decide) (by decide) (by decide) (by decide) (by decide)

end DeepSphere
